import Mathlib

/-!
Verification of the istio node-agent certificate-acquisition and rotation
engine (package `na`, `security/cmd/node_agent/na`), as a shallow embedding.

The package's test file (`nodeagent_test.go`) is the visible source; the
implementation files of `nodeAgentInternal.Start`, `cAGrpcClientImpl.SendCSR`,
`createRequest` and the cert-util `GetWaitTime` are not in the visible fragment,
so those operations are modelled from the specification (sections 4.1-4.6, 7)
with the test file fixing interfaces, field orders, error messages and expected
attempt counts.
-/

namespace NodeAgent

/-- A byte string (certificate chain, key, credential) as a list of byte values. -/
abbrev Bytes := List Nat

/-- CA response (spec section 3): approval flag and signed certificate chain.
Mirrors `pb.Response{IsApproved, SignedCertChain}` used in the test file. -/
structure Response where
  isApproved : Bool
  signedCertChain : Bytes
deriving DecidableEq

/-- On-prem platform credential configuration: the three file paths, as in
`platform.OnPremConfig{"ca_file", "pkey", "cert_file"}` in the test file. -/
structure OnPremConfig where
  rootCACertFile : String
  keyFile : String
  certChainFile : String
deriving DecidableEq

/-- Node-agent configuration. Field order follows the positional literal in the
test (`nodeagent_test.go` line 92-94): CA address, subject org, RSA key size,
platform environment, retry interval, max retries, grace-period percentage,
platform-client config. The interval is in nanoseconds (Go `time.Duration`). -/
structure Config where
  istioCAAddress : String
  serviceIdentityOrg : String
  rsaKeySize : Nat
  env : String
  cSRInitialRetrialInterval : Nat
  cSRMaxRetries : Nat
  cSRGracePeriodPercentage : Nat
  platformConfig : OnPremConfig
deriving DecidableEq

/-- A gRPC dial option, abstracted to the one aspect the spec distinguishes
(section 4.2, 6): whether it configures transport security for the channel
(`grpc.WithInsecure()` explicitly disables it, credentials enable it; either
satisfies gRPC's requirement that transport security be set). -/
inductive DialOption
  | withInsecure
  | withTransportCredentials
deriving DecidableEq

/-- Whether a dial option satisfies gRPC's transport-security requirement. -/
def DialOption.setsTransportSecurity : DialOption → Bool
  | .withInsecure => true
  | .withTransportCredentials => true

/-- Platform client capability (spec section 6), mirroring the fields of
`mockpc.FakeClient{dialOptions, dialOptionsErr, identity, identityErr,
agentCredential, agentCredentialErr, properPlatform}` in the test file;
the paired value/error fields become `Except`. -/
structure PlatformClient where
  dialOptions : Except String (List DialOption)
  serviceIdentity : Except String String
  agentCredential : Except String Bytes
  credentialType : String
  properPlatform : Bool

/-- `isProperPlatform()` of the platform capability. -/
def PlatformClient.isProperPlatform (pc : PlatformClient) : Bool :=
  pc.properPlatform

/-- The CSR request (spec section 3): identity credential plus CSR bytes. -/
structure Request where
  csrPem : Bytes
  nodeAgentCredential : Bytes
deriving DecidableEq

/-- Modelled from the spec: the smallest RSA key size able to encode the CSR
(section 4.1: an undersized key is a construction-time configuration error;
the test treats 128 bits as too small and 512 bits as large enough). -/
def minRSAKeySize : Nat := 256

/-- Modelled from the spec: the private-key bytes generated by `createRequest`
for a configuration; key material is opaque to every claim, so it is
represented by a value determined by the configured key size. -/
def modelPrivateKey (config : Config) : Bytes :=
  [config.rsaKeySize]

/-- Modelled from the spec: `nodeAgentInternal.createRequest` (section 4.1),
whose implementation is not in the visible fragment. It generates a key pair of
the configured size and a CSR (fatal error when the key size is too small for
the CSR encoding), then fetches the agent credential from the platform client
(fatal error on failure). Error strings are the ones the test expects. -/
def createRequest (config : Config) (pc : PlatformClient) :
    Except String (Bytes × Request) :=
  if config.rsaKeySize < minRSAKeySize then
    .error ("request creation fails on CSR generation (CSR generation fails at X509 cert request generation (crypto/rsa: message too long for RSA public key size))")
  else
    match pc.agentCredential with
    | .error e => .error ("request creation fails on getting agent credential (" ++ e ++ ")")
    | .ok cred => .ok (modelPrivateKey config, ⟨[config.rsaKeySize, 0], cred⟩)

/-- One `SendCSR` outcome as the retry controller sees it: a transport/RPC
error (with no response), or a reply that may itself be absent, matching the
Go pair `(*pb.Response, error)` as the test's fake CA client produces it. -/
inductive SendOutcome
  | failure (msg : String)
  | reply (r : Option Response)
deriving DecidableEq

/-- A CA client, modelled as the outcome of its n-th `SendCSR` call (1-based),
mirroring the call counter of `FakeCAClient` in the test file. -/
abbrev CAClient := Nat → SendOutcome

/-- The cert-wait-time calculator handle (`certUtil.GetWaitTime` partially
applied to `now` and the grace percentage): certificate-chain bytes to a wait
duration, or a parse error on a malformed certificate. -/
abbrev CertUtil := Bytes → Except String Int

/-- Modelled from the spec (section 4.3): classify one send outcome. An attempt
succeeds only when a response is present, its approval flag is true, and its
certificate chain is present (non-empty) and well-formed, well-formedness
being checked by the wait-time calculator's certificate parse; every other
outcome is abandoned and retried. On success, returns the chain and the
computed wait time. -/
def attemptSuccess (u : CertUtil) : SendOutcome → Option (Bytes × Int)
  | .failure _ => none
  | .reply none => none
  | .reply (some r) =>
    if r.isApproved && !r.signedCertChain.isEmpty then
      match u r.signedCertChain with
      | .ok w => some (r.signedCertChain, w)
      | .error _ => none
    else none

/-- Result of one rotation cycle's retry loop. -/
inductive CycleOutcome
  | issued (chain : Bytes) (wait : Int)
  | exhausted
deriving DecidableEq

/-- Modelled from the spec: the retry controller (section 4.3). `remaining` is
the number of attempts the budget still allows (`maxRetries + 1` at the start
of a cycle); `callNum` is the 1-based index the next `SendCSR` call will have
on the CA client's counter. Returns the cycle outcome together with the number
of `SendCSR` calls the cycle made; all non-success outcomes consume the same
budget, with a constant sleep between attempts (time is not modelled). -/
def retryLoop (ca : CAClient) (u : CertUtil) : Nat → Nat → CycleOutcome × Nat
  | 0, _ => (.exhausted, 0)
  | remaining + 1, callNum =>
    match attemptSuccess u (ca callNum) with
    | some (chain, w) => (.issued chain w, 1)
    | none =>
      let p := retryLoop ca u remaining (callNum + 1)
      (p.1, p.2 + 1)

/-- The two artifacts held by the secret writer (spec section 4.4): contents of
the certificate-chain file and of the private-key file, `none` when never
written; mirrors the `WriteContent` map of the test's fake file util. -/
structure SecretState where
  certFile : Option Bytes
  keyFile : Option Bytes
deriving DecidableEq

/-- The initial secret-writer state: nothing written. -/
def SecretState.init : SecretState := ⟨none, none⟩

/-- Result of running the agent: either `Start` returned with a fatal error, or
the rotation loop is still running (fuel for unfolding the intentionally
infinite loop ran out). Both carry the total number of `SendCSR` calls made
and the secret-writer state. -/
inductive RunResult
  | returned (err : String) (calls : Nat) (st : SecretState)
  | running (calls : Nat) (st : SecretState)
deriving DecidableEq

/-- The synthetic exhaustion error (spec section 7), naming the configured
max-retries value; the message is the one the test file expects. -/
def exhaustionError (n : Nat) : String :=
  "node agent can't get the CSR approved from Istio CA after max number of retries (" ++ toString n ++ ")"

/-- The fatal CSR-generation error for an undersized key, as the test expects it. -/
def csrGenerationError : String :=
  "request creation fails on CSR generation (CSR generation fails at X509 cert request generation (crypto/rsa: message too long for RSA public key size))"

/-- Modelled from the spec: the rotation loop of `Start` (section 4.6). Each
cycle builds a request (fatal on failure), runs the bounded retry loop (fatal
exhaustion error naming the configured max-retries once the budget is
consumed), and on success persists the private key and certificate chain and
sleeps the computed wait time before the next cycle; `fuel` bounds how many
cycles are unfolded. `calls` accumulates `SendCSR` calls across cycles. -/
def runCycles (config : Config) (pc : PlatformClient) (ca : CAClient)
    (u : CertUtil) : Nat → Nat → SecretState → RunResult
  | 0, calls, st => .running calls st
  | fuel + 1, calls, st =>
    match createRequest config pc with
    | .error e => .returned e calls st
    | .ok (privKey, _req) =>
      match retryLoop ca u (config.cSRMaxRetries + 1) (calls + 1) with
      | (.exhausted, n) =>
        .returned (exhaustionError config.cSRMaxRetries) (calls + n) st
      | (.issued chain _w, n) =>
        runCycles config pc ca u fuel (calls + n) ⟨some chain, some privKey⟩

/-- Modelled from the spec: `nodeAgentInternal.Start` (section 4.6): fatal
error on nil configuration, fatal error when the platform client reports the
wrong platform, then the rotation loop. Error strings are the ones the test
file expects. -/
def start (config : Option Config) (pc : PlatformClient) (ca : CAClient)
    (u : CertUtil) (fuel : Nat) : RunResult :=
  match config with
  | none => .returned "node Agent configuration is nil" 0 SecretState.init
  | some c =>
    if pc.isProperPlatform then
      runCycles c pc ca u fuel 0 SecretState.init
    else
      .returned "node Agent is not running on the right platform" 0 SecretState.init

/-- Result of one `sendCSR` call of the gRPC CA client: whether a dial was
attempted, and the RPC result. -/
structure SendCSRResult where
  dialAttempted : Bool
  result : Except String Response

/-- The dial-time error gRPC produces when no supplied option sets transport
security, as the test expects it. -/
def noTransportSecurityError (addr : String) : String :=
  "failed to dial " ++ addr ++ ": grpc: no transport security set (use grpc.WithInsecure() explicitly or set credentials)"

/-- Modelled from the spec: `cAGrpcClientImpl.SendCSR` (section 4.2), whose
implementation is not in the visible fragment. A single attempt with no hidden
loops: it fails before dialing when the configured CA address is empty or when
the platform client cannot supply dial options; the dial fails when none of
the supplied options sets transport security (gRPC refuses such a channel, so
the connection is never silently downgraded); otherwise the unary call is
performed and returns the server's reply. Error strings are the ones the test
file expects. -/
def sendCSR (config : Config) (pc : PlatformClient)
    (serverReply : Except String Response) : SendCSRResult :=
  if config.istioCAAddress = "" then
    ⟨false, .error "istio CA address is empty"⟩
  else
    match pc.dialOptions with
    | .error e => ⟨false, .error e⟩
    | .ok opts =>
      if opts.any DialOption.setsTransportSecurity then
        ⟨true, serverReply⟩
      else
        ⟨true, .error (noTransportSecurityError config.istioCAAddress)⟩

/-- Modelled from the spec: the cert-util wait-time computation (section 4.5).
The certificate's validity window is passed as its parsed bounds (times in
integer nanoseconds): renewal starts at
`notAfter - gracePeriodPercentage percent of (notAfter - notBefore)`, and the
returned wait is that instant minus `now` (zero or negative when renewal is
already due); a range error is produced when `notAfter` precedes `notBefore`. -/
def getWaitTime (notBefore notAfter now : Int) (gracePeriodPercentage : Nat) :
    Except String Int :=
  if notAfter < notBefore then
    .error "certificate validity range error: notAfter precedes notBefore"
  else
    .ok (notAfter - (gracePeriodPercentage : Int) * (notAfter - notBefore) / 100 - now)

/-! ### Concrete fixtures, mirroring the test file's values -/

/-- The bytes of the chain `TESTCERT` used by the test's success scenario. -/
def testCert : Bytes := [84, 69, 83, 84, 67, 69, 82, 84]

/-- The general platform-client config of the test. -/
def generalPcConfig : OnPremConfig := ⟨"ca_file", "pkey", "cert_file"⟩

/-- The general configuration of the test: max retries 3, grace period 50. -/
def generalConfig : Config :=
  ⟨"ca_addr", "Google Inc.", 512, "onprem", 1000000, 3, 50, generalPcConfig⟩

/-- The test's well-behaved platform client (proper platform, empty
credential, insecure dial option). -/
def properPc : PlatformClient :=
  ⟨.ok [.withInsecure], .ok "service1", .ok [], "", true⟩

/-- The test's fake CA client of the success scenario: the first
`maxCAClientSuccessReturns = 8` calls return an approved response with chain
`TESTCERT`; every later call returns an error terminating the test. -/
def fakeCAEightSuccesses : CAClient := fun i =>
  if i ≤ 8 then .reply (some ⟨true, testCert⟩)
  else .failure "terminating the test with errors"

/-- A cert util that always parses, with wait time zero (the test's fake). -/
def certUtilOk : CertUtil := fun _ => .ok 0

/-! ### Helper lemmas on the retry loop -/

/-- When every attempt fails, the retry loop consumes its whole budget and
exhausts: `remaining` calls are made. -/
theorem retryLoop_allFail (ca : CAClient) (u : CertUtil)
    (h : ∀ i, attemptSuccess u (ca i) = none) :
    ∀ r s, retryLoop ca u r s = (.exhausted, r) := by
  intro r
  induction r with
  | zero => intro s; rfl
  | succ n ih =>
    intro s
    simp only [retryLoop, h s, ih (s + 1)]

theorem start_allFail (config : Config) (pc : PlatformClient) (ca : CAClient)
    (u : CertUtil) (f : Nat)
    (hp : pc.isProperPlatform = true)
    (hk : minRSAKeySize ≤ config.rsaKeySize)
    (hc : ∃ b, pc.agentCredential = .ok b)
    (h : ∀ i, attemptSuccess u (ca i) = none) :
    start (some config) pc ca u (f + 1)
      = .returned (exhaustionError config.cSRMaxRetries)
          (config.cSRMaxRetries + 1) SecretState.init := by
  obtain ⟨b, hb⟩ := hc
  simp [start, hp, runCycles, createRequest, Nat.not_lt_of_le hk, hb,
    retryLoop_allFail ca u h]

/-- When the first `j` attempts fail and attempt `j + 1` succeeds within the
budget, the retry loop stops at the success having made `j + 1` calls. -/
theorem retryLoop_firstSuccess (ca : CAClient) (u : CertUtil) (chain : Bytes)
    (w : Int) :
    ∀ j rem s, j < rem →
      (∀ t, t < j → attemptSuccess u (ca (s + t)) = none) →
      attemptSuccess u (ca (s + j)) = some (chain, w) →
      retryLoop ca u rem s = (.issued chain w, j + 1) := by
  intro j
  induction j with
  | zero =>
    intro rem s hlt hfail hsucc
    match rem, hlt with
    | r + 1, _ =>
      rw [show s + 0 = s from rfl] at hsucc
      simp only [retryLoop, hsucc]
  | succ n ih =>
    intro rem s hlt hfail hsucc
    match rem, hlt with
    | r + 1, hlt =>
      have h0 : attemptSuccess u (ca s) = none := by
        have h := hfail 0 (Nat.succ_pos n)
        rwa [Nat.add_zero] at h
      have htail : retryLoop ca u r (s + 1) = (.issued chain w, n + 1) := by
        refine ih r (s + 1) (by omega) (fun t ht => ?_) ?_
        · have h := hfail (t + 1) (by omega)
          rwa [show s + (t + 1) = s + 1 + t by omega] at h
        · rwa [show s + (n + 1) = s + 1 + n by omega] at hsucc
      simp only [retryLoop, h0, htail]

/-- A send outcome that is a non-success for reasons visible without parsing
the chain: a transport/RPC error, an absent response, or approval flag false. -/
def nonSuccessOutcome : SendOutcome → Prop
  | .failure _ => True
  | .reply none => True
  | .reply (some r) => r.isApproved = false

theorem nonSuccessOutcome_attempt_none (u : CertUtil) (o : SendOutcome)
    (h : nonSuccessOutcome o) : attemptSuccess u o = none := by
  match o with
  | .failure _ => rfl
  | .reply none => rfl
  | .reply (some r) =>
    simp only [nonSuccessOutcome] at h
    simp [attemptSuccess, h]

theorem attemptSuccess_parseError (u : CertUtil) (r : Response) (e : String)
    (he : u r.signedCertChain = .error e) :
    attemptSuccess u (.reply (some r)) = none := by
  simp only [attemptSuccess]
  cases hb : (r.isApproved && !r.signedCertChain.isEmpty) with
  | false => simp
  | true => simp [he]

/-! ### The claims -/

/-- C1: with `maxRetries = N`, if every `SendCSR` call has a non-success
outcome (transport/RPC error, nil response, or approval flag false), `Start`
makes exactly `N + 1` `SendCSR` calls and returns the single fatal exhaustion
error naming the configured value `N`. -/
theorem start_always_failing_exhausts (config : Config) (pc : PlatformClient)
    (ca : CAClient) (u : CertUtil) (f : Nat)
    (hp : pc.isProperPlatform = true)
    (hk : minRSAKeySize ≤ config.rsaKeySize)
    (hc : ∃ b, pc.agentCredential = .ok b)
    (hout : ∀ i, nonSuccessOutcome (ca i)) :
    start (some config) pc ca u (f + 1)
      = .returned (exhaustionError config.cSRMaxRetries)
          (config.cSRMaxRetries + 1) SecretState.init :=
  start_allFail config pc ca u f hp hk hc
    (fun i => nonSuccessOutcome_attempt_none u (ca i) (hout i))

theorem start_always_failing_exhausts_witness :
    start (some generalConfig) properPc (fun _ => SendOutcome.reply none)
        certUtilOk 1
      = .returned (exhaustionError 3) 4 SecretState.init :=
  start_always_failing_exhausts generalConfig properPc
    (fun _ => SendOutcome.reply none) certUtilOk 0 rfl (by decide)
    ⟨[], rfl⟩ (fun _ => trivial)

/-- C3: a response with approval flag true whose certificate bytes fail
wait-time parsing is retryable and consumes the same budget as a transport
error: with `maxRetries = N` and every attempt failing this way, `Start` makes
exactly `N + 1` `SendCSR` calls and returns the exhaustion error. -/
theorem start_malformed_cert_exhausts (config : Config) (pc : PlatformClient)
    (ca : CAClient) (u : CertUtil) (f : Nat)
    (hp : pc.isProperPlatform = true)
    (hk : minRSAKeySize ≤ config.rsaKeySize)
    (hc : ∃ b, pc.agentCredential = .ok b)
    (hout : ∀ i, ∃ r, ca i = .reply (some r) ∧ r.isApproved = true
      ∧ ∃ e, u r.signedCertChain = .error e) :
    start (some config) pc ca u (f + 1)
      = .returned (exhaustionError config.cSRMaxRetries)
          (config.cSRMaxRetries + 1) SecretState.init := by
  refine start_allFail config pc ca u f hp hk hc (fun i => ?_)
  obtain ⟨r, hi, _, e, he⟩ := hout i
  rw [hi]
  exact attemptSuccess_parseError u r e he

/-- A cert util that always reports a parse error (the test's fake with
`cert parsing error`). -/
def certUtilErr : CertUtil := fun _ => .error "cert parsing error"

theorem start_malformed_cert_exhausts_witness :
    start (some generalConfig) properPc
        (fun _ => SendOutcome.reply (some ⟨true, testCert⟩)) certUtilErr 1
      = .returned (exhaustionError 3) 4 SecretState.init :=
  start_malformed_cert_exhausts generalConfig properPc
    (fun _ => SendOutcome.reply (some ⟨true, testCert⟩)) certUtilErr 0 rfl
    (by decide) ⟨[], rfl⟩
    (fun _ => ⟨⟨true, testCert⟩, rfl, rfl, "cert parsing error", rfl⟩)

/-- C4: a nil configuration makes `Start` return the fatal
configuration-is-nil error with zero `SendCSR` calls. -/
theorem start_nil_config (pc : PlatformClient) (ca : CAClient) (u : CertUtil)
    (fuel : Nat) :
    start none pc ca u fuel
      = .returned "node Agent configuration is nil" 0 SecretState.init := rfl

/-- C5: a platform client reporting `isProperPlatform() = false` makes `Start`
return the fatal wrong-platform error with zero `SendCSR` calls. -/
theorem start_wrong_platform (config : Config) (pc : PlatformClient)
    (ca : CAClient) (u : CertUtil) (fuel : Nat)
    (h : pc.isProperPlatform = false) :
    start (some config) pc ca u fuel
      = .returned "node Agent is not running on the right platform" 0
          SecretState.init := by
  simp [start, h]

/-- The test's wrong-platform client. -/
def wrongPlatformPc : PlatformClient :=
  ⟨.ok [.withInsecure], .ok "service1", .ok [], "", false⟩

theorem start_wrong_platform_witness :
    start (some generalConfig) wrongPlatformPc (fun _ => SendOutcome.reply none)
        certUtilOk 1
      = .returned "node Agent is not running on the right platform" 0
          SecretState.init :=
  start_wrong_platform generalConfig wrongPlatformPc
    (fun _ => SendOutcome.reply none) certUtilOk 1 rfl

/-- C6: a configuration whose RSA key size is too small for the CSR encoding
makes `Start` return the fatal CSR-generation error with zero `SendCSR` calls,
whatever the configured max retries and retry interval. -/
theorem start_undersized_key_fatal (config : Config) (pc : PlatformClient)
    (ca : CAClient) (u : CertUtil) (f : Nat)
    (hp : pc.isProperPlatform = true)
    (hk : config.rsaKeySize < minRSAKeySize) :
    start (some config) pc ca u (f + 1)
      = .returned csrGenerationError 0 SecretState.init := by
  simp [start, hp, runCycles, createRequest, hk, csrGenerationError]

/-- The test's configuration with a 128-bit key, too small for the CSR. -/
def smallKeyConfig : Config :=
  ⟨"ca_addr", "Google Inc.", 128, "onprem", 1000000, 3, 50, generalPcConfig⟩

theorem start_undersized_key_fatal_witness :
    start (some smallKeyConfig) properPc (fun _ => SendOutcome.reply none)
        certUtilOk 1
      = .returned csrGenerationError 0 SecretState.init :=
  start_undersized_key_fatal smallKeyConfig properPc
    (fun _ => SendOutcome.reply none) certUtilOk 0 rfl (by decide)

/-- C2 as stated is refuted by a malformed chain: with `maxRetries = 3`, a CA
client whose very first reply has approval true and the non-empty chain
`TESTCERT`, but whose certificate bytes fail wait-time parsing, does not give a
one-attempt cycle persisting the chain: the cycle makes 4 attempts, exhausts,
and persists nothing. -/
theorem claim_success_at_k_counterexample :
    start (some generalConfig) properPc
        (fun _ => SendOutcome.reply (some ⟨true, testCert⟩)) certUtilErr 1
      = .returned (exhaustionError 3) 4 SecretState.init
    ∧ start (some generalConfig) properPc
        (fun _ => SendOutcome.reply (some ⟨true, testCert⟩)) certUtilErr 1
      ≠ .running 1 ⟨some testCert, some (modelPrivateKey generalConfig)⟩ := by
  constructor
  · decide
  · decide

/-- C2 (amended: the chain must also be well-formed, i.e. its wait-time parse
succeeds): with `maxRetries = N` and `1 ≤ k ≤ N`, if attempts `1 .. k - 1` of a
cycle fail and the CA client's reply on attempt `k` has approval true and a
non-empty well-formed chain, the cycle makes exactly `k` `SendCSR` calls and
the secret writer persists exactly that chain to the certificate file. -/
theorem start_success_at_attempt_k (config : Config) (pc : PlatformClient)
    (ca : CAClient) (u : CertUtil) (k : Nat) (r : Response) (w : Int)
    (hp : pc.isProperPlatform = true)
    (hk : minRSAKeySize ≤ config.rsaKeySize)
    (hc : ∃ b, pc.agentCredential = .ok b)
    (hk1 : 1 ≤ k) (hkN : k ≤ config.cSRMaxRetries)
    (hbefore : ∀ i, 1 ≤ i → i < k → attemptSuccess u (ca i) = none)
    (hcall : ca k = .reply (some r))
    (happ : r.isApproved = true)
    (hne : r.signedCertChain ≠ [])
    (hwf : u r.signedCertChain = .ok w) :
    start (some config) pc ca u 1
      = .running k ⟨some r.signedCertChain, some (modelPrivateKey config)⟩ := by
  obtain ⟨b, hb⟩ := hc
  have hie : r.signedCertChain.isEmpty = false := by
    cases h : r.signedCertChain
    · exact absurd h hne
    · rfl
  have hsucc : attemptSuccess u (ca k) = some (r.signedCertChain, w) := by
    rw [hcall]
    simp [attemptSuccess, happ, hie, hwf]
  have hloop : retryLoop ca u (config.cSRMaxRetries + 1) 1
      = (.issued r.signedCertChain w, k) := by
    have h := retryLoop_firstSuccess ca u r.signedCertChain w (k - 1)
      (config.cSRMaxRetries + 1) 1 (by omega)
      (fun t ht => hbefore (1 + t) (by omega) (by omega))
      (by rwa [show 1 + (k - 1) = k by omega])
    rwa [show k - 1 + 1 = k by omega] at h
  simp [start, hp, runCycles, createRequest, Nat.not_lt_of_le hk, hb, hloop]

/-- The CA client of the test's canonical scenario: the first two calls reply
approval false, the third replies approval true with chain `TESTCERT`. -/
def twoDenialsThenApproval : CAClient := fun i =>
  if i < 3 then .reply (some ⟨false, []⟩) else .reply (some ⟨true, testCert⟩)

theorem start_success_at_attempt_k_witness :
    start (some generalConfig) properPc twoDenialsThenApproval certUtilOk 1
      = .running 3 ⟨some testCert, some (modelPrivateKey generalConfig)⟩ :=
  start_success_at_attempt_k generalConfig properPc twoDenialsThenApproval
    certUtilOk 3 ⟨true, testCert⟩ 0 rfl (by decide) ⟨[], rfl⟩ (by decide)
    (by decide)
    (fun i h1 h3 => by
      have : twoDenialsThenApproval i = .reply (some ⟨false, []⟩) := by
        simp [twoDenialsThenApproval, h3]
      rw [this]
      rfl)
    rfl rfl (by decide) rfl

/-- C7: `sendCSR` with an empty configured CA address fails before any dial
with the CA-address-is-empty error; and that error, like any transport error,
is retryable and consumes the retry budget (a CA client always producing it
drives `Start` to the exhaustion error after `maxRetries + 1` calls). -/
theorem sendCSR_empty_address (config : Config) (pc : PlatformClient)
    (serverReply : Except String Response)
    (h : config.istioCAAddress = "") :
    sendCSR config pc serverReply
      = ⟨false, .error "istio CA address is empty"⟩
    ∧ ∀ (config2 : Config) (pc2 : PlatformClient) (u : CertUtil) (f : Nat),
        pc2.isProperPlatform = true →
        minRSAKeySize ≤ config2.rsaKeySize →
        (∃ b, pc2.agentCredential = .ok b) →
        start (some config2) pc2
            (fun _ => SendOutcome.failure "istio CA address is empty") u (f + 1)
          = .returned (exhaustionError config2.cSRMaxRetries)
              (config2.cSRMaxRetries + 1) SecretState.init := by
  constructor
  · simp [sendCSR, h]
  · intro config2 pc2 u f hp hk hc
    exact start_allFail config2 pc2 _ u f hp hk hc (fun _ => rfl)

/-- The test's configuration with an empty CA address and a 512-bit key. -/
def emptyAddrConfig : Config :=
  ⟨"", "", 512, "", 0, 0, 0, generalPcConfig⟩

theorem sendCSR_empty_address_witness :
    sendCSR emptyAddrConfig properPc (Except.ok ⟨true, []⟩)
      = ⟨false, .error "istio CA address is empty"⟩
    ∧ start (some generalConfig) properPc
        (fun _ => SendOutcome.failure "istio CA address is empty") certUtilOk 1
      = .returned (exhaustionError 3) 4 SecretState.init :=
  ⟨(sendCSR_empty_address emptyAddrConfig properPc (Except.ok ⟨true, []⟩)
      rfl).1,
   (sendCSR_empty_address emptyAddrConfig properPc (Except.ok ⟨true, []⟩)
      rfl).2 generalConfig properPc certUtilOk 0 rfl (by decide) ⟨[], rfl⟩⟩

/-- C8: when the platform client supplies zero dial options so that no option
sets transport security, `sendCSR` fails at dial time with the explicit
no-transport-security error, and never succeeds silently without it. -/
theorem sendCSR_no_transport_security (config : Config) (pc : PlatformClient)
    (serverReply : Except String Response)
    (haddr : config.istioCAAddress ≠ "")
    (hopts : pc.dialOptions = .ok []) :
    sendCSR config pc serverReply
      = ⟨true, .error (noTransportSecurityError config.istioCAAddress)⟩
    ∧ ∀ r : Response, (sendCSR config pc serverReply).result ≠ .ok r := by
  have h1 : sendCSR config pc serverReply
      = ⟨true, .error (noTransportSecurityError config.istioCAAddress)⟩ := by
    simp [sendCSR, haddr, hopts]
  refine ⟨h1, fun r hr => ?_⟩
  rw [h1] at hr
  exact Except.noConfusion hr

/-- A platform client supplying zero dial options, as in the test's
without-insecure-option scenario. -/
def noOptsPc : PlatformClient :=
  ⟨.ok [], .ok "service1", .ok [], "", true⟩

theorem sendCSR_no_transport_security_witness :
    sendCSR generalConfig noOptsPc (Except.ok ⟨true, []⟩)
      = ⟨true, .error (noTransportSecurityError "ca_addr")⟩
    ∧ ∀ r : Response,
        (sendCSR generalConfig noOptsPc (Except.ok ⟨true, []⟩)).result
          ≠ .ok r :=
  sendCSR_no_transport_security generalConfig noOptsPc (Except.ok ⟨true, []⟩)
    (by decide) rfl

/-- C9: `getWaitTime` is monotone in the grace-period percentage: for a fixed
well-formed validity window and fixed `now`, raising the percentage never
raises the returned wait time. -/
theorem getWaitTime_grace_monotone (notBefore notAfter now : Int)
    (g1 g2 : Nat) (w1 w2 : Int)
    (hg : g1 ≤ g2)
    (h1 : getWaitTime notBefore notAfter now g1 = .ok w1)
    (h2 : getWaitTime notBefore notAfter now g2 = .ok w2) :
    w2 ≤ w1 := by
  by_cases hr : notAfter < notBefore
  · rw [getWaitTime, if_pos hr] at h1
    exact Except.noConfusion h1
  · rw [getWaitTime, if_neg hr] at h1 h2
    injection h1 with h1
    injection h2 with h2
    subst h1
    subst h2
    have hd : (0 : Int) ≤ notAfter - notBefore := by omega
    have hmul : (g1 : Int) * (notAfter - notBefore)
        ≤ (g2 : Int) * (notAfter - notBefore) :=
      mul_le_mul_of_nonneg_right (by exact_mod_cast hg) hd
    have hdiv : (g1 : Int) * (notAfter - notBefore) / 100
        ≤ (g2 : Int) * (notAfter - notBefore) / 100 :=
      Int.ediv_le_ediv (by norm_num) hmul
    omega

theorem getWaitTime_grace_monotone_witness :
    (40 : Nat) ≤ 50
    ∧ getWaitTime 0 100 60 40 = .ok 0
    ∧ getWaitTime 0 100 60 50 = .ok (-10)
    ∧ (-10 : Int) ≤ 0 :=
  ⟨by decide, rfl, rfl,
   getWaitTime_grace_monotone 0 100 60 40 50 0 (-10) (by decide) rfl rfl⟩

/-- C10: the retry budget is per rotation cycle: with `maxRetries = 3` and the
test's fake CA client that approves its first 8 calls and errors afterwards,
`Start` runs 8 one-call successful cycles (each persisting `TESTCERT`) and a
final failing cycle of 4 calls, returning the exhaustion error after exactly
12 `SendCSR` calls in total. -/
theorem start_fresh_budget_per_cycle :
    start (some generalConfig) properPc fakeCAEightSuccesses certUtilOk 9
      = .returned (exhaustionError 3) 12
          ⟨some testCert, some (modelPrivateKey generalConfig)⟩ := by
  decide

end NodeAgent
